import Mathlib

/-
  Verification development for the mbed I2S asynchronous transfer manager
  (source/I2S.cpp and mbed-drivers/I2S.h).

  The C++ class `mbed::I2S` is shallowly embedded as follows.

  * Machine integers and pointers are `Nat`; event masks are `Nat` bitmasks.
  * The per-object session state (`_busy`, `_current_transaction`), the static
    bounded transaction queue (`CircularBuffer<transaction_t,
    TRANSACTION_QUEUE_SIZE_I2S> _transaction_buffer`, embedded as a `List`
    with an explicit capacity argument `N`; `full()` is `length = N`), the
    hardware activity flag read by `i2s_active`, and the configuration-cache
    bit (`_owner == this`) form the state record `I2SState`.
  * `minar::Scheduler::postCallback` is embedded as appending the bound
    callback value to a log field `posted`.
  * Fallible operations return `Int` result codes exactly as the C++ does;
    the `MBED_ASSERT` fail-fast contract of the builder setters is embedded
    by returning `Option` (`none` = assertion failure).

  State that is `static` in the class (the transaction queue, the
  configuration owner) is modelled twice: once in the single-object model
  (sections on `I2SState`), and once in multi-handle models (`CfgState`,
  `MultiState`) where the sharing across logical handles is explicit.
-/

namespace I2S

/-- Modelled from the spec: the event-mask constants of the external HAL
interface `i2s_api.h` (spec section 6, Hardware Transfer Primitive), which is
not part of this repository.  Only their bit-disjointness structure matters to
the theorems below: the user-visible event bits are collected in
`I2S_EVENT_ALL`, and the internal transfer-fully-complete indicator is a
separate high bit outside `I2S_EVENT_ALL`. -/
def I2S_EVENT_ERROR : Nat := 1 <<< 1

/-- Modelled from the spec: user-visible completion event bit (reported per
completed buffer; in circular mode it recurs without the internal
transfer-fully-complete indicator). -/
def I2S_EVENT_COMPLETE : Nat := 1 <<< 2

/-- Modelled from the spec: user-visible receive-overflow event bit. -/
def I2S_EVENT_RX_OVERFLOW : Nat := 1 <<< 3

/-- Modelled from the spec: mask of all user-visible events. -/
def I2S_EVENT_ALL : Nat := I2S_EVENT_ERROR ||| I2S_EVENT_COMPLETE ||| I2S_EVENT_RX_OVERFLOW

/-- Modelled from the spec: the internal transfer-fully-complete indicator,
a bit disjoint from `I2S_EVENT_ALL`. -/
def I2S_EVENT_INTERNAL_TRANSFER_COMPLETE : Nat := 1 <<< 30

/-- A buffer view: base pointer and length, as in the `Buffer` member of
`TwoWayTransaction` (pointer embedded as `Nat`). -/
structure Buffer where
  buf : Nat
  length : Nat
deriving DecidableEq

/-- The `TwoWayTransaction<event_callback_t>` payload of a transfer
descriptor: tx/rx buffer views, registered event mask, and the completion
callback (the C++ callback's truthiness test is embedded by `Option`;
the callback function itself is opaque, identified by a `Nat`). -/
structure TwoWayTransaction where
  tx_buffer : Buffer
  rx_buffer : Buffer
  event : Nat
  callback : Option Nat
deriving DecidableEq

/-- Embeds `I2S::transaction_data_t`: a `TwoWayTransaction` plus the circular flag. -/
structure transaction_data_t where
  _transaction : TwoWayTransaction
  _circular : Bool
deriving DecidableEq

/-- A deferred callback as posted to `minar::Scheduler::postCallback` by the
irq handlers: the bound callback with its bound arguments
(tx view, rx view, event mask). -/
structure PostedCallback where
  cb : Nat
  tx_buffer : Buffer
  rx_buffer : Buffer
  event : Nat
deriving DecidableEq

/-- Session state of one `I2S` object together with the static queue and the
static configuration-owner cache restricted to this single object:
`owner_self` embeds `I2S::_owner == this`, `hw_active` embeds the value the
HAL would return from `i2s_active(&_i2s)`, and `posted` logs the deferred
callbacks handed to the scheduler. -/
structure I2SState where
  busy : Bool
  hw_active : Bool
  owner_self : Bool
  current : transaction_data_t
  queue : List transaction_data_t
  posted : List PostedCallback
deriving DecidableEq

/-- Embeds `I2S::aquire` (sic): if the cached owner is not this object, re-apply the
configuration to the hardware and take ownership.  In the single-object model
the configuration registers are not observable beyond ownership, so only the
ownership bit changes. -/
def aquire (s : I2SState) : I2SState :=
  if s.owner_self then s else { s with owner_self := true }

/-- Embeds `I2S::start_transfer`: acquire the unit, store the descriptor as the
current transaction, and start the hardware transfer
(`i2s_master_transfer`), which makes the hardware active. -/
def start_transfer (td : transaction_data_t) (s : I2SState) : I2SState :=
  let s1 := aquire s
  { s1 with current := td, hw_active := true }

/-- Embeds `I2S::queue_transfer` with queue capacity `N`
(`TRANSACTION_QUEUE_SIZE_I2S`): if the circular buffer is full, return -1 and
drop the descriptor; otherwise push it and return 0. -/
def queue_transfer (N : Nat) (td : transaction_data_t) (s : I2SState) : Int × I2SState :=
  if s.queue.length = N then (-1, s)
  else (0, { s with queue := s.queue ++ [td] })

/-- Embeds `I2S::transfer(const I2STransferAdder&)`: under the critical section read
the busy flag into `queue` and set it; then either enqueue (if the flag was
set or the hardware is active) or start the transfer immediately. -/
def transfer (N : Nat) (td : transaction_data_t) (s : I2SState) : Int × I2SState :=
  let queueFlag := s.busy
  let s1 : I2SState := { s with busy := true }
  if queueFlag || s1.hw_active then queue_transfer N td s1
  else (0, start_transfer td s1)

/-- Embeds `I2S::dequeue_transaction`: pop the oldest queued transaction; the busy
flag becomes the pop success; on success the popped transaction is started
(`start_transaction` / `start_transfer`). -/
def dequeue_transaction (s : I2SState) : I2SState :=
  match s.queue with
  | [] => { s with busy := false }
  | t :: rest => start_transfer t { s with busy := true, queue := rest }

/-- The HAL primitive `i2s_abort_asynch`: stop the hardware transfer. -/
def i2s_abort_asynch (s : I2SState) : I2SState :=
  { s with hw_active := false }

/-- Embeds `I2S::abort_transfer`: abort the hardware transfer, then dequeue. -/
def abort_transfer (s : I2SState) : I2SState :=
  dequeue_transaction (i2s_abort_asynch s)

/-- Embeds `I2S::clear_transfer_buffer`: reset the transaction queue. -/
def clear_transfer_buffer (s : I2SState) : I2SState :=
  { s with queue := [] }

/-- Embeds `I2S::abort_all_transfers`: clear the queue, then abort. -/
def abort_all_transfers (s : I2SState) : I2SState :=
  abort_transfer (clear_transfer_buffer s)

/-- Embeds `I2S::get_transfer_status`: -1 while the hardware is active, 0 otherwise. -/
def get_transfer_status (s : I2SState) : Int :=
  if s.hw_active then -1 else 0

/-- Embeds `I2S::irq_handler_asynch_rx`, taking the event mask returned by the HAL
handler `i2s_irq_handler_asynch(&_i2s, I2S_RX_EVENT)` as input: post the
deferred callback when a callback is registered and the mask meets
`I2S_EVENT_ALL`, then dequeue when the mask meets
`I2S_EVENT_ALL | I2S_EVENT_INTERNAL_TRANSFER_COMPLETE`. -/
def irq_handler_asynch_rx (event : Nat) (s : I2SState) : I2SState :=
  let s1 :=
    match s.current._transaction.callback with
    | some cb =>
      if event &&& I2S_EVENT_ALL ≠ 0 then
        { s with posted := s.posted ++
            [{ cb := cb, tx_buffer := s.current._transaction.tx_buffer,
               rx_buffer := s.current._transaction.rx_buffer,
               event := event &&& I2S_EVENT_ALL }] }
      else s
    | none => s
  if event &&& (I2S_EVENT_ALL ||| I2S_EVENT_INTERNAL_TRANSFER_COMPLETE) ≠ 0 then
    dequeue_transaction s1
  else s1

/-- Embeds `I2S::irq_handler_asynch_tx`: textually the same body as the rx handler,
on the tx channel's event mask. -/
def irq_handler_asynch_tx (event : Nat) (s : I2SState) : I2SState :=
  let s1 :=
    match s.current._transaction.callback with
    | some cb =>
      if event &&& I2S_EVENT_ALL ≠ 0 then
        { s with posted := s.posted ++
            [{ cb := cb, tx_buffer := s.current._transaction.tx_buffer,
               rx_buffer := s.current._transaction.rx_buffer,
               event := event &&& I2S_EVENT_ALL }] }
      else s
    | none => s
  if event &&& (I2S_EVENT_ALL ||| I2S_EVENT_INTERNAL_TRANSFER_COMPLETE) ≠ 0 then
    dequeue_transaction s1
  else s1

/-- Modelled from the spec: the external HAL handler
`i2s_irq_handler_asynch` (spec section 6, read_event) reports, of the raw
hardware events, only those enabled in the event mask registered when the
transfer was started, plus the internal transfer-fully-complete indicator. -/
def i2s_irq_handler_asynch (raw : Nat) (enabled : Nat) : Nat :=
  raw &&& (enabled ||| I2S_EVENT_INTERNAL_TRANSFER_COMPLETE)

/-- The rx interrupt entry point as driven by the hardware: the HAL handler
filters the raw event mask by the current transaction's registered event
mask, and the driver's rx handler runs on the result. -/
def irq_rx_from_hw (raw : Nat) (s : I2SState) : I2SState :=
  irq_handler_asynch_rx (i2s_irq_handler_asynch raw s.current._transaction.event) s

/-- The tx interrupt entry point as driven by the hardware. -/
def irq_tx_from_hw (raw : Nat) (s : I2SState) : I2SState :=
  irq_handler_asynch_tx (i2s_irq_handler_asynch raw s.current._transaction.event) s

/-- Embeds `I2S::I2STransferAdder`: the transfer builder.  The C++ `_owner` pointer
is implicit in the single-object model. -/
structure I2STransferAdder where
  _td : transaction_data_t
  _applied : Bool
  _rc : Int
deriving DecidableEq

/-- The private constructor `I2STransferAdder(I2S*)` as invoked by
`I2S::transfer()`: cleared buffer lengths, null callback, non-circular,
not yet applied.  The uninitialized buffer pointers and event field are
embedded as 0. -/
def transferBuilder : I2STransferAdder :=
  { _td := { _transaction := { tx_buffer := { buf := 0, length := 0 },
                               rx_buffer := { buf := 0, length := 0 },
                               event := 0, callback := none },
             _circular := false },
    _applied := false, _rc := 0 }

/-- Embeds `I2STransferAdder::tx`: `MBED_ASSERT(!_td._transaction.tx_buffer.length)`
then store the buffer.  An assertion failure is embedded as `none`. -/
def I2STransferAdder.tx (b : I2STransferAdder) (txBuf txSize : Nat) :
    Option I2STransferAdder :=
  if b._td._transaction.tx_buffer.length ≠ 0 then none
  else some { b with _td := { b._td with _transaction :=
    { b._td._transaction with tx_buffer := { buf := txBuf, length := txSize } } } }

/-- Embeds `I2STransferAdder::rx`: `MBED_ASSERT(!_td._transaction.rx_buffer.length)`
then store the buffer. -/
def I2STransferAdder.rx (b : I2STransferAdder) (rxBuf rxSize : Nat) :
    Option I2STransferAdder :=
  if b._td._transaction.rx_buffer.length ≠ 0 then none
  else some { b with _td := { b._td with _transaction :=
    { b._td._transaction with rx_buffer := { buf := rxBuf, length := rxSize } } } }

/-- Embeds `I2STransferAdder::circular`: stores the flag; the source has no
assertion here, so this setter never fails. -/
def I2STransferAdder.circular (b : I2STransferAdder) (mode : Bool) :
    Option I2STransferAdder :=
  some { b with _td := { b._td with _circular := mode } }

/-- Embeds `I2STransferAdder::callback`: `MBED_ASSERT(!_td._transaction.callback)`
then store the callback and its event mask. -/
def I2STransferAdder.callback (b : I2STransferAdder) (cb : Nat) (event : Nat) :
    Option I2STransferAdder :=
  if b._td._transaction.callback.isSome then none
  else some { b with _td := { b._td with _transaction :=
    { b._td._transaction with callback := some cb, event := event } } }

/-- Embeds `I2STransferAdder::apply`: on the first call, mark applied and submit via
`I2S::transfer`, recording the result code; afterwards return the cached
code without touching the peripheral. -/
def I2STransferAdder.apply (N : Nat) (b : I2STransferAdder) (s : I2SState) :
    Int × I2STransferAdder × I2SState :=
  if b._applied then (b._rc, b, s)
  else
    let r := transfer N b._td s
    (r.1, { b with _applied := true, _rc := r.1 }, r.2)

/-- The destructor `~I2STransferAdder`: calls `apply`, discarding the
result code. -/
def I2STransferAdder.dtor (N : Nat) (b : I2STransferAdder) (s : I2SState) :
    I2STransferAdder × I2SState :=
  (I2STransferAdder.apply N b s).2

/-- Embeds `I2STransferAdder::operator=`: copies the descriptor and owner and
clears the applied flag; the cached result code `_rc` of the target is not
assigned. -/
def I2STransferAdder.copyAssign (target a : I2STransferAdder) : I2STransferAdder :=
  { target with _td := a._td, _applied := false }

/-- The copy constructor `I2STransferAdder(const I2STransferAdder&)`:
`*this = a` on an uninitialized object, whose indeterminate `_rc` is the
parameter `rc0`. -/
def I2STransferAdder.copyCtor (rc0 : Int) (a : I2STransferAdder) : I2STransferAdder :=
  I2STransferAdder.copyAssign { _td := a._td, _applied := false, _rc := rc0 } a

/-- One logical handle's configuration fields
(`_dbits .. _hz` members of `I2S`). -/
structure I2SConfig where
  _dbits : Int
  _fbits : Int
  _polarity : Int
  _protocol : Nat
  _mode : Nat
  _hz : Nat
deriving DecidableEq

/-- Multi-handle model of the configuration cache: handles are `Nat`,
`_owner` is the static `I2S* I2S::_owner` (the handle whose configuration is
on the physical unit), `cfg` gives each handle's configuration fields, and
`applied` logs every full configuration application
(`i2s_format`/`i2s_audio_frequency`/`i2s_set_protocol`/`i2s_set_mode`
block) performed on the hardware, as (handle, configuration). -/
structure CfgState where
  _owner : Option Nat
  cfg : Nat → I2SConfig
  applied : List (Nat × I2SConfig)

/-- Embeds `I2S::aquire` in the multi-handle model: if the static owner is not this
handle, apply this handle's full configuration to the unit and take
ownership. -/
def aquire_h (h : Nat) (s : CfgState) : CfgState :=
  if s._owner = some h then s
  else { s with applied := s.applied ++ [(h, s.cfg h)], _owner := some h }

/-- Embeds `I2S::format`: store the new format fields, set the static owner to
null, and immediately re-acquire. -/
def format (h : Nat) (dbits fbits polarity : Int) (s : CfgState) : CfgState :=
  let newcfg : Nat → I2SConfig := fun k =>
    if k = h then { s.cfg k with _dbits := dbits, _fbits := fbits, _polarity := polarity }
    else s.cfg k
  aquire_h h { s with cfg := newcfg, _owner := none }

/-- Embeds `I2S::audio_frequency`: store the frequency, null the owner, re-acquire. -/
def audio_frequency (h : Nat) (hz : Nat) (s : CfgState) : CfgState :=
  let newcfg : Nat → I2SConfig := fun k =>
    if k = h then { s.cfg k with _hz := hz } else s.cfg k
  aquire_h h { s with cfg := newcfg, _owner := none }

/-- Embeds `I2S::set_protocol`: store the protocol, null the owner, re-acquire. -/
def set_protocol (h : Nat) (protocol : Nat) (s : CfgState) : CfgState :=
  let newcfg : Nat → I2SConfig := fun k =>
    if k = h then { s.cfg k with _protocol := protocol } else s.cfg k
  aquire_h h { s with cfg := newcfg, _owner := none }

/-- Embeds `I2S::set_mode`: store the mode, null the owner, re-acquire. -/
def set_mode (h : Nat) (mode : Nat) (s : CfgState) : CfgState :=
  let newcfg : Nat → I2SConfig := fun k =>
    if k = h then { s.cfg k with _mode := mode } else s.cfg k
  aquire_h h { s with cfg := newcfg, _owner := none }

/-- Per-object session state in the multi-handle model. -/
structure Inst where
  busy : Bool
  hw_active : Bool
  current : transaction_data_t
deriving DecidableEq

/-- Multi-handle model of the transfer machinery: `queue` is the single
static `_transaction_buffer` shared by every `I2S` object (each entry is a
`Transaction<I2S, transaction_data_t>`: the submitting object and its
descriptor); `_owner` is the static configuration owner; `insts` gives each
object's own session state. -/
structure MultiState where
  queue : List (Nat × transaction_data_t)
  _owner : Option Nat
  insts : Nat → Inst

/-- Replace one object's session state. -/
def setInst (h : Nat) (v : Inst) (s : MultiState) : MultiState :=
  let newinsts : Nat → Inst := fun k => if k = h then v else s.insts k
  { s with insts := newinsts }

/-- Embeds `I2S::aquire` in the multi-handle transfer model (configuration
application itself is tracked by `CfgState`; here only ownership moves). -/
def aquire_m (h : Nat) (s : MultiState) : MultiState :=
  if s._owner = some h then s else { s with _owner := some h }

/-- Embeds `I2S::start_transfer` on object `h` in the multi-handle model. -/
def start_transfer_m (h : Nat) (td : transaction_data_t) (s : MultiState) : MultiState :=
  let s1 := aquire_m h s
  setInst h { s1.insts h with current := td, hw_active := true } s1

/-- Embeds `I2S::dequeue_transaction` called on object `h`: pop the shared queue;
the caller's busy flag becomes the pop success; a popped transaction is
started on its own submitting object (`t.get_object()`). -/
def dequeue_transaction_m (h : Nat) (s : MultiState) : MultiState :=
  match s.queue with
  | [] => setInst h { s.insts h with busy := false } s
  | (j, td) :: rest =>
    let s1 := setInst h { s.insts h with busy := true } { s with queue := rest }
    start_transfer_m j td s1

/-- Embeds `I2S::abort_transfer` on object `h`: abort `h`'s hardware transfer,
then dequeue. -/
def abort_transfer_m (h : Nat) (s : MultiState) : MultiState :=
  dequeue_transaction_m h (setInst h { s.insts h with hw_active := false } s)

/-- Embeds `I2S::clear_transfer_buffer` called on object `h`: resets the static
queue; the calling object is irrelevant. -/
def clear_transfer_buffer_m (_h : Nat) (s : MultiState) : MultiState :=
  { s with queue := [] }

/-- Embeds `I2S::abort_all_transfers` on object `h`. -/
def abort_all_transfers_m (h : Nat) (s : MultiState) : MultiState :=
  abort_transfer_m h (clear_transfer_buffer_m h s)

/-- A trivial transfer descriptor (no buffers, no callback). -/
def td0 : transaction_data_t :=
  { _transaction := { tx_buffer := { buf := 0, length := 0 },
                      rx_buffer := { buf := 0, length := 0 },
                      event := 0, callback := none },
    _circular := false }

/-- A transfer descriptor with both buffers, a callback and the full user
event mask. -/
def tdA : transaction_data_t :=
  { _transaction := { tx_buffer := { buf := 100, length := 4 },
                      rx_buffer := { buf := 200, length := 4 },
                      event := I2S_EVENT_ALL, callback := some 7 },
    _circular := false }

/-- An idle unit: busy flag clear, hardware inactive, empty queue. -/
def sIdle : I2SState :=
  { busy := false, hw_active := false, owner_self := false,
    current := td0, queue := [], posted := [] }

/-- A busy unit running `tdA` with an empty queue. -/
def sBusy : I2SState :=
  { busy := true, hw_active := true, owner_self := true,
    current := tdA, queue := [], posted := [] }

/-- The race window state: the busy flag has been cleared (an interrupt-side
dequeue found the queue empty) while the hardware is still active, and the
queue is meanwhile full again at capacity 1. -/
def sRace : I2SState :=
  { busy := false, hw_active := true, owner_self := true,
    current := tdA, queue := [td0], posted := [] }

/-- A busy unit running `tdA` with one queued descriptor. -/
def sQ : I2SState :=
  { busy := true, hw_active := true, owner_self := true,
    current := tdA, queue := [td0], posted := [] }

/-- A busy unit with three queued descriptors. -/
def sQ3 : I2SState :=
  { busy := true, hw_active := true, owner_self := true,
    current := tdA, queue := [td0, tdA, td0], posted := [] }

/-- A builder on which the circular flag has already been set once. -/
def bC8 : I2STransferAdder :=
  (transferBuilder.circular true).getD transferBuilder

/-- The default configuration from the `I2S` constructor:
16/16 bits, polarity 0, protocol PHILIPS, mode MASTER_TX, 44100 Hz. -/
def cfg0 : I2SConfig :=
  { _dbits := 16, _fbits := 16, _polarity := 0, _protocol := 0, _mode := 0, _hz := 44100 }

/-- A configuration state in which handle 0 is the current owner. -/
def sCfg : CfgState :=
  { _owner := some 0, cfg := fun _ => cfg0, applied := [] }

/-- A multi-handle state: every object is busy with `tdA` on active
hardware, and the shared queue holds one transaction submitted through
handle 1. -/
def sM : MultiState :=
  { queue := [(1, td0)], _owner := none,
    insts := fun _ => { busy := true, hw_active := true, current := tdA } }

/-- A second multi-handle state for frame reasoning: shared queue holds
transactions of two different handles. -/
def sM2 : MultiState :=
  { queue := [(1, td0), (2, tdA)], _owner := some 2,
    insts := fun _ => { busy := true, hw_active := true, current := tdA } }

/-- The callback-posting first half of the irq handlers, named so the
handlers can be reasoned about in two stages (the handlers' bodies reduce
definitionally to `post_step` followed by the conditional dequeue). -/
def post_step (event : Nat) (s : I2SState) : I2SState :=
  match s.current._transaction.callback with
  | some cb =>
    if event &&& I2S_EVENT_ALL ≠ 0 then
      { s with posted := s.posted ++
          [{ cb := cb, tx_buffer := s.current._transaction.tx_buffer,
             rx_buffer := s.current._transaction.rx_buffer,
             event := event &&& I2S_EVENT_ALL }] }
    else s
  | none => s

@[simp]
theorem aquire_busy (s : I2SState) : (aquire s).busy = s.busy := by
  unfold aquire; split <;> rfl

@[simp]
theorem aquire_hw_active (s : I2SState) : (aquire s).hw_active = s.hw_active := by
  unfold aquire; split <;> rfl

@[simp]
theorem aquire_current (s : I2SState) : (aquire s).current = s.current := by
  unfold aquire; split <;> rfl

@[simp]
theorem aquire_queue (s : I2SState) : (aquire s).queue = s.queue := by
  unfold aquire; split <;> rfl

@[simp]
theorem aquire_posted (s : I2SState) : (aquire s).posted = s.posted := by
  unfold aquire; split <;> rfl

@[simp]
theorem aquire_owner_self (s : I2SState) : (aquire s).owner_self = true := by
  unfold aquire; split <;> simp_all

@[simp]
theorem start_transfer_current (td : transaction_data_t) (s : I2SState) :
    (start_transfer td s).current = td := rfl

@[simp]
theorem start_transfer_hw_active (td : transaction_data_t) (s : I2SState) :
    (start_transfer td s).hw_active = true := rfl

@[simp]
theorem start_transfer_busy (td : transaction_data_t) (s : I2SState) :
    (start_transfer td s).busy = s.busy := by
  unfold start_transfer; simp

@[simp]
theorem start_transfer_queue (td : transaction_data_t) (s : I2SState) :
    (start_transfer td s).queue = s.queue := by
  unfold start_transfer; simp

@[simp]
theorem start_transfer_posted (td : transaction_data_t) (s : I2SState) :
    (start_transfer td s).posted = s.posted := by
  unfold start_transfer; simp

@[simp]
theorem start_transfer_owner_self (td : transaction_data_t) (s : I2SState) :
    (start_transfer td s).owner_self = true := by
  unfold start_transfer; simp

@[simp]
theorem dequeue_transaction_posted (s : I2SState) :
    (dequeue_transaction s).posted = s.posted := by
  unfold dequeue_transaction
  match h : s.queue with
  | [] => simp
  | t :: rest => simp

@[simp]
theorem post_step_busy (event : Nat) (s : I2SState) :
    (post_step event s).busy = s.busy := by
  unfold post_step
  match h : s.current._transaction.callback with
  | some cb => dsimp only; split <;> rfl
  | none => rfl

@[simp]
theorem post_step_hw_active (event : Nat) (s : I2SState) :
    (post_step event s).hw_active = s.hw_active := by
  unfold post_step
  match h : s.current._transaction.callback with
  | some cb => dsimp only; split <;> rfl
  | none => rfl

@[simp]
theorem post_step_current (event : Nat) (s : I2SState) :
    (post_step event s).current = s.current := by
  unfold post_step
  match h : s.current._transaction.callback with
  | some cb => dsimp only; split <;> rfl
  | none => rfl

@[simp]
theorem post_step_queue (event : Nat) (s : I2SState) :
    (post_step event s).queue = s.queue := by
  unfold post_step
  match h : s.current._transaction.callback with
  | some cb => dsimp only; split <;> rfl
  | none => rfl

theorem irq_rx_eq (event : Nat) (s : I2SState) :
    irq_handler_asynch_rx event s =
      if event &&& (I2S_EVENT_ALL ||| I2S_EVENT_INTERNAL_TRANSFER_COMPLETE) ≠ 0 then
        dequeue_transaction (post_step event s)
      else post_step event s := rfl

theorem irq_tx_eq (event : Nat) (s : I2SState) :
    irq_handler_asynch_tx event s =
      if event &&& (I2S_EVENT_ALL ||| I2S_EVENT_INTERNAL_TRANSFER_COMPLETE) ≠ 0 then
        dequeue_transaction (post_step event s)
      else post_step event s := rfl

/-- C1: a submission through `I2S::transfer` on an idle unit (busy flag
clear, hardware consistent with it) starts the transfer on the hardware
immediately after acquiring the unit, stores the descriptor as the current
transfer, and returns 0; on a busy unit the descriptor is appended to the
bounded queue instead of starting hardware, returning 0 on successful
enqueue and -1 when the queue is full. -/
theorem C1_submit_starts_or_queues (N : Nat) (td : transaction_data_t) (s : I2SState)
    (hcons : s.hw_active = s.busy) :
    (s.busy = false →
       (transfer N td s).1 = 0 ∧
       (transfer N td s).2.current = td ∧
       (transfer N td s).2.hw_active = true ∧
       (transfer N td s).2.owner_self = true ∧
       (transfer N td s).2.busy = true ∧
       (transfer N td s).2.queue = s.queue) ∧
    (s.busy = true →
       (transfer N td s).2.current = s.current ∧
       (transfer N td s).2.hw_active = s.hw_active ∧
       (s.queue.length = N →
          (transfer N td s).1 = -1 ∧ (transfer N td s).2.queue = s.queue) ∧
       (s.queue.length ≠ N →
          (transfer N td s).1 = 0 ∧ (transfer N td s).2.queue = s.queue ++ [td])) := by
  constructor
  · intro hb
    have hhw : s.hw_active = false := by rw [hcons, hb]
    simp [transfer, hb, hhw]
  · intro hb
    by_cases hfull : s.queue.length = N
    · simp [transfer, queue_transfer, hb, hfull]
    · simp [transfer, queue_transfer, hb, hfull]

/-- C1 witness: submitting `tdA` with capacity 2 on the idle state starts it
immediately with return code 0. -/
theorem C1_submit_starts_or_queues_witness :
    (transfer 2 tdA sIdle).1 = 0 ∧ (transfer 2 tdA sIdle).2.current = tdA ∧
    (transfer 2 tdA sIdle).2.hw_active = true := by
  have h := C1_submit_starts_or_queues 2 tdA sIdle (by decide)
  exact ⟨(h.1 rfl).1, (h.1 rfl).2.1, (h.1 rfl).2.2.1⟩

/-- C2 counterexample: in the race-window state (busy flag clear, hardware
still active, queue full at capacity 1) the submission is rejected with -1,
yet the busy flag changes from false to true: the rejected submission does
have a side effect on the peripheral session state. -/
theorem C2_rejected_submission_counterexample :
    (transfer 1 td0 sRace).1 = -1 ∧
    sRace.busy = false ∧
    (transfer 1 td0 sRace).2.busy = true := by decide

/-- C2 amended: a submission rejected with -1 leaves the queue contents,
current transfer, hardware activity, configuration owner and posted
callbacks unchanged, and leaves the busy flag set; in particular, whenever
the unit's busy flag was already set the whole state is exactly unchanged.
The one side effect the code permits is setting a clear busy flag (the
rejection path never rolls the test-and-set back). -/
theorem C2_rejected_submission_frame (N : Nat) (td : transaction_data_t) (s : I2SState)
    (hrej : (transfer N td s).1 = -1) :
    (transfer N td s).2.queue = s.queue ∧
    (transfer N td s).2.current = s.current ∧
    (transfer N td s).2.hw_active = s.hw_active ∧
    (transfer N td s).2.owner_self = s.owner_self ∧
    (transfer N td s).2.posted = s.posted ∧
    (transfer N td s).2.busy = true ∧
    (s.busy = true → (transfer N td s).2 = s) := by
  by_cases hc : (s.busy || s.hw_active) = true
  · by_cases hfull : s.queue.length = N
    · have hres : transfer N td s = (-1, { s with busy := true }) := by
        simp [transfer, queue_transfer, hc, hfull]
      rw [hres]
      refine ⟨rfl, rfl, rfl, rfl, rfl, rfl, ?_⟩
      intro hb
      cases s
      simp_all
    · simp [transfer, queue_transfer, hc, hfull] at hrej
  · simp [transfer, queue_transfer, hc] at hrej

/-- C2 amended witness: at capacity 0 with a busy unit the submission is
rejected and the state is exactly unchanged. -/
theorem C2_rejected_submission_frame_witness :
    (transfer 0 td0 sBusy).2 = sBusy ∧ (transfer 0 td0 sBusy).2.busy = true := by
  have h := C2_rejected_submission_frame 0 td0 sBusy (by decide)
  exact ⟨h.2.2.2.2.2.2 rfl, h.2.2.2.2.2.1⟩

/-- C3 counterexample: a hardware event mask consisting of the plain error
bit only — containing neither the internal transfer-fully-complete
indicator nor even the user-visible complete bit — nevertheless advances the
queue: on a busy unit with `td0` queued, the rx completion dequeues `td0`
and starts it.  The dequeue condition of the code is met by any reported
event bit, not only by the transfer-fully-complete indicator. -/
theorem C3_dequeue_condition_counterexample :
    I2S_EVENT_ERROR &&& I2S_EVENT_INTERNAL_TRANSFER_COMPLETE = 0 ∧
    I2S_EVENT_ERROR &&& I2S_EVENT_COMPLETE = 0 ∧
    sQ.queue = [td0] ∧
    (irq_handler_asynch_rx I2S_EVENT_ERROR sQ).queue = [] ∧
    (irq_handler_asynch_rx I2S_EVENT_ERROR sQ).current = td0 := by decide

/-- C3 amended: for each interrupt completion on either channel, the
dequeue-and-start-next transition is triggered if and only if the hardware
event mask intersects the union of all user-visible event bits and the
internal transfer-fully-complete indicator; an event mask meeting none of
those bits leaves queue, busy flag and current transfer unchanged, while
any reported event — including a plain per-buffer or error event without
the fully-complete indicator — advances the queue. -/
theorem C3_dequeue_condition_amended (event : Nat) (s : I2SState) :
    (event &&& (I2S_EVENT_ALL ||| I2S_EVENT_INTERNAL_TRANSFER_COMPLETE) = 0 →
       (irq_handler_asynch_rx event s).queue = s.queue ∧
       (irq_handler_asynch_rx event s).busy = s.busy ∧
       (irq_handler_asynch_rx event s).current = s.current ∧
       (irq_handler_asynch_tx event s).queue = s.queue ∧
       (irq_handler_asynch_tx event s).busy = s.busy ∧
       (irq_handler_asynch_tx event s).current = s.current) ∧
    (event &&& (I2S_EVENT_ALL ||| I2S_EVENT_INTERNAL_TRANSFER_COMPLETE) ≠ 0 →
       (s.queue = [] →
          (irq_handler_asynch_rx event s).busy = false ∧
          (irq_handler_asynch_rx event s).queue = [] ∧
          (irq_handler_asynch_tx event s).busy = false ∧
          (irq_handler_asynch_tx event s).queue = []) ∧
       (∀ t rest, s.queue = t :: rest →
          (irq_handler_asynch_rx event s).queue = rest ∧
          (irq_handler_asynch_rx event s).current = t ∧
          (irq_handler_asynch_rx event s).busy = true ∧
          (irq_handler_asynch_rx event s).hw_active = true ∧
          (irq_handler_asynch_tx event s).queue = rest ∧
          (irq_handler_asynch_tx event s).current = t ∧
          (irq_handler_asynch_tx event s).busy = true ∧
          (irq_handler_asynch_tx event s).hw_active = true)) := by
  constructor
  · intro hz
    rw [irq_rx_eq, irq_tx_eq]
    simp [hz]
  · intro hnz
    rw [irq_rx_eq, irq_tx_eq]
    simp only [hnz, if_pos, ne_eq, not_false_iff, if_true]
    constructor
    · intro hq
      simp [dequeue_transaction, hq]
    · intro t rest hq
      simp [dequeue_transaction, hq]

/-- C3 amended witness: on the busy state with queue `[td0]`, the pure
internal-complete event advances the queue on both channels, and an event
mask of 0 leaves the queue alone. -/
theorem C3_dequeue_condition_amended_witness :
    (irq_handler_asynch_rx I2S_EVENT_INTERNAL_TRANSFER_COMPLETE sQ).queue = [] ∧
    (irq_handler_asynch_tx I2S_EVENT_INTERNAL_TRANSFER_COMPLETE sQ).current = td0 ∧
    (irq_handler_asynch_rx 0 sQ).queue = sQ.queue := by
  have h1 := C3_dequeue_condition_amended I2S_EVENT_INTERNAL_TRANSFER_COMPLETE sQ
  have h2 := C3_dequeue_condition_amended 0 sQ
  refine ⟨((h1.2 (by decide)).2 td0 [] rfl).1, ((h1.2 (by decide)).2 td0 [] rfl).2.2.2.2.2.1,
    (h2.1 (by decide)).1⟩

theorem irq_rx_posted (event : Nat) (s : I2SState) :
    (irq_handler_asynch_rx event s).posted = (post_step event s).posted := by
  rw [irq_rx_eq]
  split <;> simp

theorem irq_tx_posted (event : Nat) (s : I2SState) :
    (irq_handler_asynch_tx event s).posted = (post_step event s).posted := by
  rw [irq_tx_eq]
  split <;> simp

theorem masked_event_and_all (raw reg : Nat)
    (hreg : reg &&& I2S_EVENT_ALL = reg) :
    i2s_irq_handler_asynch raw reg &&& I2S_EVENT_ALL = raw &&& reg := by
  unfold i2s_irq_handler_asynch
  apply Nat.eq_of_testBit_eq
  intro i
  have h1 : (reg &&& I2S_EVENT_ALL).testBit i = reg.testBit i := by rw [hreg]
  have hz : I2S_EVENT_INTERNAL_TRANSFER_COMPLETE &&& I2S_EVENT_ALL = 0 := by decide
  have h2 : (I2S_EVENT_INTERNAL_TRANSFER_COMPLETE &&& I2S_EVENT_ALL).testBit i
      = (0 : Nat).testBit i := by rw [hz]
  simp only [Nat.testBit_and, Nat.testBit_or, Nat.zero_testBit] at h1 h2 ⊢
  cases hr : raw.testBit i <;> cases hg : reg.testBit i <;>
    cases ha : I2S_EVENT_ALL.testBit i <;>
    cases hi : I2S_EVENT_INTERNAL_TRANSFER_COMPLETE.testBit i <;> simp_all

/-- C4: for an interrupt completion on either channel, with the raw hardware
events filtered by the HAL through the registered event mask (which is a
submask of the user-visible events), a deferred callback is posted if and
only if a callback is registered in the current transfer and the raw
hardware event mask intersects the transfer's registered event mask, and the
posted callback carries the tx buffer view, the rx buffer view, and the
intersection of the hardware event mask with the registered event mask. -/
theorem C4_deferred_callback_posting (raw : Nat) (s : I2SState)
    (hreg : s.current._transaction.event &&& I2S_EVENT_ALL = s.current._transaction.event) :
    (s.current._transaction.callback = none →
       (irq_rx_from_hw raw s).posted = s.posted ∧
       (irq_tx_from_hw raw s).posted = s.posted) ∧
    (∀ cb, s.current._transaction.callback = some cb →
       (raw &&& s.current._transaction.event = 0 →
          (irq_rx_from_hw raw s).posted = s.posted ∧
          (irq_tx_from_hw raw s).posted = s.posted) ∧
       (raw &&& s.current._transaction.event ≠ 0 →
          (irq_rx_from_hw raw s).posted = s.posted ++
            [{ cb := cb, tx_buffer := s.current._transaction.tx_buffer,
               rx_buffer := s.current._transaction.rx_buffer,
               event := raw &&& s.current._transaction.event }] ∧
          (irq_tx_from_hw raw s).posted = s.posted ++
            [{ cb := cb, tx_buffer := s.current._transaction.tx_buffer,
               rx_buffer := s.current._transaction.rx_buffer,
               event := raw &&& s.current._transaction.event }])) := by
  have hmask := masked_event_and_all raw s.current._transaction.event hreg
  constructor
  · intro hcb
    rw [irq_rx_from_hw, irq_tx_from_hw, irq_rx_posted, irq_tx_posted]
    constructor <;> simp [post_step, hcb]
  · intro cb hcb
    constructor
    · intro hz
      rw [irq_rx_from_hw, irq_tx_from_hw, irq_rx_posted, irq_tx_posted]
      constructor <;> simp [post_step, hcb, hmask, hz]
    · intro hnz
      rw [irq_rx_from_hw, irq_tx_from_hw, irq_rx_posted, irq_tx_posted]
      constructor <;> simp [post_step, hcb, hmask, hnz]

/-- C4 witness: on the busy state whose current transfer registers callback 7
with the full user event mask, a raw complete event posts exactly one
deferred callback carrying the tx view, rx view and the intersected mask,
on the rx channel; a raw event of 0 posts nothing on the tx channel. -/
theorem C4_deferred_callback_posting_witness :
    (irq_rx_from_hw I2S_EVENT_COMPLETE sQ).posted = sQ.posted ++
      [{ cb := 7, tx_buffer := sQ.current._transaction.tx_buffer,
         rx_buffer := sQ.current._transaction.rx_buffer,
         event := I2S_EVENT_COMPLETE &&& sQ.current._transaction.event }] ∧
    (irq_tx_from_hw 0 sQ).posted = sQ.posted := by
  have h1 := C4_deferred_callback_posting I2S_EVENT_COMPLETE sQ (by decide)
  have h2 := C4_deferred_callback_posting 0 sQ (by decide)
  exact ⟨((h1.2 7 rfl).2 (by decide)).1, ((h2.2 7 rfl).1 (by decide)).2⟩

/-- C5: the builder's commit is idempotent.  A first `apply` on a
not-yet-applied builder performs the submission through `I2S::transfer` and
records its result code; the resulting builder is marked applied; applying
again to the resulting builder and state returns the identical triple (the
cached code, with no re-submission and no state change); an already-applied
builder's `apply` is the identity on the state and returns the cached code;
and the destructor performs exactly `apply`, so a builder discarded without
an explicit commit is committed exactly once on destruction. -/
theorem C5_commit_idempotent (N : Nat) (b : I2STransferAdder) (s : I2SState) :
    ((I2STransferAdder.apply N b s).2.1)._applied = true ∧
    (b._applied = false →
       (I2STransferAdder.apply N b s).1 = (transfer N b._td s).1 ∧
       (I2STransferAdder.apply N b s).2.2 = (transfer N b._td s).2 ∧
       ((I2STransferAdder.apply N b s).2.1)._rc = (transfer N b._td s).1) ∧
    (b._applied = true → I2STransferAdder.apply N b s = (b._rc, b, s)) ∧
    I2STransferAdder.apply N (I2STransferAdder.apply N b s).2.1 (I2STransferAdder.apply N b s).2.2
      = I2STransferAdder.apply N b s ∧
    I2STransferAdder.dtor N b s = (I2STransferAdder.apply N b s).2 := by
  by_cases hb : b._applied = true
  · simp [I2STransferAdder.apply, I2STransferAdder.dtor, hb]
  · simp only [Bool.not_eq_true] at hb
    simp [I2STransferAdder.apply, I2STransferAdder.dtor, hb]

/-- C5 witness: applying a fresh builder on the idle unit at capacity 2
starts the transfer (code 0); applying a second time to the results changes
nothing further. -/
theorem C5_commit_idempotent_witness :
    (I2STransferAdder.apply 2 transferBuilder sIdle).1 = 0 ∧
    I2STransferAdder.apply 2 (I2STransferAdder.apply 2 transferBuilder sIdle).2.1
        (I2STransferAdder.apply 2 transferBuilder sIdle).2.2
      = I2STransferAdder.apply 2 transferBuilder sIdle := by
  have h := C5_commit_idempotent 2 transferBuilder sIdle
  exact ⟨((h.2.1 rfl).1).trans (by decide), h.2.2.2.1⟩

/-- C6: with an active transfer and queued descriptors [A, B, C],
`abort_transfer` halts the hardware transfer and immediately dequeues and
starts A (hardware active again, busy, A current), leaving [B, C] queued;
and `abort_transfer` on a unit with an empty queue clears the busy flag and
leaves the hardware halted (the unit goes idle). -/
theorem C6_abort_drains (s : I2SState) (A B C : transaction_data_t)
    (hq : s.queue = [A, B, C]) :
    (abort_transfer s).current = A ∧
    (abort_transfer s).queue = [B, C] ∧
    (abort_transfer s).busy = true ∧
    (abort_transfer s).hw_active = true ∧
    (∀ s' : I2SState, s'.queue = [] →
       (abort_transfer s').busy = false ∧ (abort_transfer s').hw_active = false) := by
  refine ⟨?_, ?_, ?_, ?_, ?_⟩
  · simp [abort_transfer, i2s_abort_asynch, dequeue_transaction, hq]
  · simp [abort_transfer, i2s_abort_asynch, dequeue_transaction, hq]
  · simp [abort_transfer, i2s_abort_asynch, dequeue_transaction, hq]
  · simp [abort_transfer, i2s_abort_asynch, dequeue_transaction, hq]
  · intro s' hq'
    simp [abort_transfer, i2s_abort_asynch, dequeue_transaction, hq']

/-- C6 witness: aborting the busy state whose queue is [td0, tdA, td0]
makes td0 current with [tdA, td0] left queued, and aborting the busy state
with empty queue goes idle. -/
theorem C6_abort_drains_witness :
    (abort_transfer sQ3).current = td0 ∧
    (abort_transfer sQ3).queue = [tdA, td0] ∧
    (abort_transfer sBusy).busy = false := by
  have h := C6_abort_drains sQ3 td0 tdA td0 rfl
  exact ⟨h.1, h.2.1, (h.2.2.2.2 sBusy rfl).1⟩

/-- C9: copying or copy-assigning a builder clears the copy's applied flag
regardless of the source's applied flag (which is universally quantified
here), while carrying over the descriptor; consequently `apply` on the copy
performs its own submission through `I2S::transfer` — a copied
already-committed builder submits again — and afterwards the copy itself is
marked applied, so submission is exactly-once per builder object. -/
theorem C9_copy_resets_applied (t a : I2STransferAdder) (rc0 : Int)
    (N : Nat) (s : I2SState) :
    (I2STransferAdder.copyAssign t a)._applied = false ∧
    (I2STransferAdder.copyAssign t a)._td = a._td ∧
    (I2STransferAdder.copyCtor rc0 a)._applied = false ∧
    (I2STransferAdder.copyCtor rc0 a)._td = a._td ∧
    (I2STransferAdder.apply N (I2STransferAdder.copyAssign t a) s).1
      = (transfer N a._td s).1 ∧
    (I2STransferAdder.apply N (I2STransferAdder.copyAssign t a) s).2.2
      = (transfer N a._td s).2 ∧
    ((I2STransferAdder.apply N (I2STransferAdder.copyAssign t a) s).2.1)._applied = true := by
  refine ⟨rfl, rfl, rfl, rfl, ?_, ?_, ?_⟩ <;>
    simp [I2STransferAdder.apply, I2STransferAdder.copyAssign]

/-- C7 counterexample: handle 0 is the current owner and calls `format`.
Afterwards the owner cache is NOT none — it is handle 0 again, because the
mutator re-acquires internally — and the next `aquire` by handle 0 applies
nothing further (the application log does not grow).  Both halves of the
claim (owner left as none; next acquire by the previous owner re-applies)
fail on the code. -/
theorem C7_invalidation_counterexample :
    (format 0 24 32 1 sCfg)._owner ≠ none ∧
    (format 0 24 32 1 sCfg)._owner = some 0 ∧
    (aquire_h 0 (format 0 24 32 1 sCfg)).applied = (format 0 24 32 1 sCfg).applied := by
  refine ⟨by decide, by decide, rfl⟩

/-- C7 amended: every configuration mutator (format, audio frequency,
protocol, mode) nulls the owner cache and then immediately re-acquires
within the same call: the full updated configuration is applied to the
physical unit unconditionally during the mutator itself (the application log
grows by exactly that entry), the mutating handle leaves the call as the
current owner, and a subsequent `aquire` by the mutating handle is a no-op.
Configuration changes therefore take effect immediately, before any next
acquire, rather than at the next acquire. -/
theorem C7_mutator_applies_immediately (h : Nat) (d f p : Int)
    (hz prot mode : Nat) (s : CfgState) :
    ((format h d f p s)._owner = some h ∧
     (format h d f p s).applied = s.applied ++
       [(h, { s.cfg h with _dbits := d, _fbits := f, _polarity := p })] ∧
     aquire_h h (format h d f p s) = format h d f p s) ∧
    ((audio_frequency h hz s)._owner = some h ∧
     (audio_frequency h hz s).applied = s.applied ++ [(h, { s.cfg h with _hz := hz })] ∧
     aquire_h h (audio_frequency h hz s) = audio_frequency h hz s) ∧
    ((set_protocol h prot s)._owner = some h ∧
     (set_protocol h prot s).applied = s.applied ++ [(h, { s.cfg h with _protocol := prot })] ∧
     aquire_h h (set_protocol h prot s) = set_protocol h prot s) ∧
    ((set_mode h mode s)._owner = some h ∧
     (set_mode h mode s).applied = s.applied ++ [(h, { s.cfg h with _mode := mode })] ∧
     aquire_h h (set_mode h mode s) = set_mode h mode s) := by
  refine ⟨⟨?_, ?_, ?_⟩, ⟨?_, ?_, ?_⟩, ⟨?_, ?_, ?_⟩, ⟨?_, ?_, ?_⟩⟩ <;>
    simp [format, audio_frequency, set_protocol, set_mode, aquire_h]

/-- C8 counterexample: the circular setter can be called twice on the same
builder without any assertion firing — the second call succeeds and silently
overwrites the flag (true then false, leaving false), contradicting the
claim that every setter fails fast on a second call. -/
theorem C8_double_set_counterexample :
    bC8._td._circular = true ∧
    (I2STransferAdder.circular bC8 false).isSome = true ∧
    I2STransferAdder.circular bC8 false
      = some { bC8 with _td := { bC8._td with _circular := false } } ∧
    ((I2STransferAdder.circular bC8 false).getD transferBuilder)._td._circular = false := by
  refine ⟨by decide, by decide, by decide, by decide⟩

/-- C8 amended: the tx, rx and callback setters fail fast via assertion on a
second effective call — tx and rx assert that the stored buffer length is
still zero, so any second call after a first call with nonzero size
asserts, and callback asserts that no callback is stored — while the
circular setter has no assertion: it always succeeds and repeated calls
silently overwrite the flag. -/
theorem C8_setters_fail_fast (b : I2STransferAdder)
    (buf1 n1 buf2 n2 cb1 ev1 cb2 ev2 : Nat) (m m2 : Bool) :
    (b._td._transaction.tx_buffer.length ≠ 0 → I2STransferAdder.tx b buf1 n1 = none) ∧
    (b._td._transaction.rx_buffer.length ≠ 0 → I2STransferAdder.rx b buf1 n1 = none) ∧
    (b._td._transaction.callback.isSome = true → I2STransferAdder.callback b cb1 ev1 = none) ∧
    (n1 ≠ 0 → ∀ b2, I2STransferAdder.tx b buf1 n1 = some b2 →
       I2STransferAdder.tx b2 buf2 n2 = none) ∧
    (n1 ≠ 0 → ∀ b2, I2STransferAdder.rx b buf1 n1 = some b2 →
       I2STransferAdder.rx b2 buf2 n2 = none) ∧
    (∀ b2, I2STransferAdder.callback b cb1 ev1 = some b2 →
       I2STransferAdder.callback b2 cb2 ev2 = none) ∧
    (I2STransferAdder.circular b m).isSome = true ∧
    (Option.bind (I2STransferAdder.circular b m) (fun x => I2STransferAdder.circular x m2)
      = some { b with _td := { b._td with _circular := m2 } }) := by
  refine ⟨?_, ?_, ?_, ?_, ?_, ?_, ?_, ?_⟩
  · intro hlen
    simp [I2STransferAdder.tx, hlen]
  · intro hlen
    simp [I2STransferAdder.rx, hlen]
  · intro hcb
    simp [I2STransferAdder.callback, hcb]
  · intro hn b2 hset
    by_cases hlen : b._td._transaction.tx_buffer.length ≠ 0
    · simp [I2STransferAdder.tx, hlen] at hset
    · simp only [ne_eq, not_not] at hlen
      simp [I2STransferAdder.tx, hlen] at hset
      subst hset
      simp [I2STransferAdder.tx, hn]
  · intro hn b2 hset
    by_cases hlen : b._td._transaction.rx_buffer.length ≠ 0
    · simp [I2STransferAdder.rx, hlen] at hset
    · simp only [ne_eq, not_not] at hlen
      simp [I2STransferAdder.rx, hlen] at hset
      subst hset
      simp [I2STransferAdder.rx, hn]
  · intro b2 hset
    by_cases hcb : b._td._transaction.callback.isSome = true
    · simp [I2STransferAdder.callback, hcb] at hset
    · simp [I2STransferAdder.callback, hcb] at hset
      subst hset
      simp [I2STransferAdder.callback]
  · simp [I2STransferAdder.circular]
  · simp [I2STransferAdder.circular]

/-- C8 amended witness: on a fresh builder, setting a 4-byte tx buffer and
then calling tx again asserts (fails); setting circular twice succeeds. -/
theorem C8_setters_fail_fast_witness :
    (Option.bind (I2STransferAdder.tx transferBuilder 5 4)
       (fun b => I2STransferAdder.tx b 6 8)) = none ∧
    (I2STransferAdder.circular transferBuilder true).isSome = true := by
  have h := C8_setters_fail_fast transferBuilder 5 4 6 8 0 0 0 0 true false
  have h1 := h.2.2.2.1 (by decide)
  constructor
  · have hfirst : I2STransferAdder.tx transferBuilder 5 4
        = some ((I2STransferAdder.tx transferBuilder 5 4).getD transferBuilder) := by decide
    rw [hfirst]
    simpa using h1 _ hfirst
  · exact h.2.2.2.2.2.2.1

/-- C10 counterexample: `abort_all_transfers` called on handle 0 does empty
the shared queue (dropping the transaction submitted through handle 1), but
it does NOT leave the caller's busy flag and running hardware transfer
unchanged: it clears both.  The claim's frame condition fails for
`abort_all_transfers`. -/
theorem C10_abort_all_frame_counterexample :
    (sM.insts 0).busy = true ∧
    (sM.insts 0).hw_active = true ∧
    (abort_all_transfers_m 0 sM).queue = [] ∧
    ((abort_all_transfers_m 0 sM).insts 0).busy = false ∧
    ((abort_all_transfers_m 0 sM).insts 0).hw_active = false := by decide

/-- C10 amended: the pending-transfer queue and the configuration-owner
cache are single static objects shared by every handle.
`clear_transfer_buffer` called through any one handle empties the queue —
including entries submitted through other handles — and does nothing else
(every handle's busy flag, current transfer and hardware activity, and the
shared owner cache, are unchanged), and its effect is identical whichever
handle is called.  `abort_all_transfers` also empties the shared queue, but
additionally halts the caller's hardware transfer and clears the caller's
busy flag (other handles stay untouched). -/
theorem C10_static_queue_shared (h h2 : Nat) (s : MultiState) :
    clear_transfer_buffer_m h s = { s with queue := [] } ∧
    clear_transfer_buffer_m h s = clear_transfer_buffer_m h2 s ∧
    (clear_transfer_buffer_m h s).insts = s.insts ∧
    (clear_transfer_buffer_m h s)._owner = s._owner ∧
    (abort_all_transfers_m h s).queue = [] ∧
    (abort_all_transfers_m h s)._owner = s._owner ∧
    (abort_all_transfers_m h s).insts h
      = { s.insts h with busy := false, hw_active := false } ∧
    (∀ k, k ≠ h → (abort_all_transfers_m h s).insts k = s.insts k) := by
  refine ⟨rfl, rfl, rfl, rfl, ?_, ?_, ?_, ?_⟩
  · simp [abort_all_transfers_m, clear_transfer_buffer_m, abort_transfer_m,
      dequeue_transaction_m, setInst]
  · simp [abort_all_transfers_m, clear_transfer_buffer_m, abort_transfer_m,
      dequeue_transaction_m, setInst]
  · simp [abort_all_transfers_m, clear_transfer_buffer_m, abort_transfer_m,
      dequeue_transaction_m, setInst]
  · intro k hk
    simp [abort_all_transfers_m, clear_transfer_buffer_m, abort_transfer_m,
      dequeue_transaction_m, setInst, hk]

/-- C10 witness: on the two-handle state whose shared queue holds entries of
handles 1 and 2, calling abort-all through handle 0 empties the queue and
leaves handle 3 untouched, and clearing through handle 0 equals clearing
through handle 1. -/
theorem C10_static_queue_shared_witness :
    (abort_all_transfers_m 0 sM2).queue = [] ∧
    (abort_all_transfers_m 0 sM2).insts 3 = sM2.insts 3 ∧
    clear_transfer_buffer_m 0 sM2 = clear_transfer_buffer_m 1 sM2 := by
  have h := C10_static_queue_shared 0 1 sM2
  exact ⟨h.2.2.2.2.1, h.2.2.2.2.2.2.2 3 (by decide), h.2.1⟩

end I2S
